import Mathlib

/-!
Verification of the office-space allocation estimator.

The estimator is a handful of pure functions over a fixed requirements
record: an area estimate with a 1.4 circulation multiplier, a threshold
feasibility score, a placement plan, and templated suggestion text.

Modeling conventions:
* JavaScript numbers are modeled as exact rationals (`ℚ`); the nullable
  floor area `number | null` becomes `Option ℚ`.
* JavaScript truthiness tests on the floor area (`!availableArea`,
  `availableArea || d`) treat both `null` and `0` as absent; the embedding
  reproduces that with explicit `none`/`= 0` checks.
* JavaScript division of a positive number by zero yields `Infinity`,
  which clears every `≥` threshold; the one place the source divides by a
  possibly-zero quantity gets an explicit branch reproducing that outcome.
* Counts are `ℕ` and presence flags are `Bool`, matching the declared
  data model (non-negative integer counts, boolean flags).
-/

namespace OfficePlanner

/-- The `SpaceRequirement` record: counts of rooms/desks plus boolean
presence flags. `additional_notes` is free text, unused by computation. -/
structure SpaceRequirement where
  workstations : ℕ
  meeting_rooms_small : ℕ
  meeting_rooms_medium : ℕ
  meeting_rooms_large : ℕ
  phone_booths : ℕ
  breakout_areas : ℕ
  kitchen_pantry : Bool
  reception_area : Bool
  storage_rooms : ℕ
  server_room : Bool
  additional_notes : String := ""

/-- JavaScript falsiness of the nullable floor area: `null` and `0` are
both falsy (`!availableArea` in the source). -/
def isFalsyArea : Option ℚ → Bool
  | none => true
  | some a => decide (a = 0)

/-- The raw weighted area sum, computed locally as `requiredArea` inside
`calculateFeasibilityScore` and as `total` inside `calculateEstimatedArea`:
workstations×6 + small×15 + medium×25 + large×40 + phone booths×2 +
breakout×20 + kitchen 15 + reception 20 + storage×10 + server 15. -/
def requiredArea (req : SpaceRequirement) : ℕ :=
  req.workstations * 6 +
  req.meeting_rooms_small * 15 +
  req.meeting_rooms_medium * 25 +
  req.meeting_rooms_large * 40 +
  req.phone_booths * 2 +
  req.breakout_areas * 20 +
  (if req.kitchen_pantry then 15 else 0) +
  (if req.reception_area then 20 else 0) +
  req.storage_rooms * 10 +
  (if req.server_room then 15 else 0)

/-- `calculateEstimatedArea` from the SpaceRequirements component: the
weighted sum of per-category areas, times the fixed 1.4 circulation
multiplier, rounded (`Math.round`, i.e. half toward positive infinity,
which is Mathlib `round`). -/
def calculateEstimatedArea (req : SpaceRequirement) : ℤ :=
  let workstationArea := req.workstations * 6
  let smallMeetingArea := req.meeting_rooms_small * 15
  let mediumMeetingArea := req.meeting_rooms_medium * 25
  let largeMeetingArea := req.meeting_rooms_large * 40
  let phoneBoothArea := req.phone_booths * 2
  let breakoutArea := req.breakout_areas * 20
  let kitchenArea := if req.kitchen_pantry then 15 else 0
  let receptionArea := if req.reception_area then 20 else 0
  let storageArea := req.storage_rooms * 10
  let serverArea := if req.server_room then 15 else 0
  let total := workstationArea + smallMeetingArea + mediumMeetingArea +
               largeMeetingArea + phoneBoothArea + breakoutArea +
               kitchenArea + receptionArea + storageArea + serverArea
  let withCirculation := (total : ℚ) * 1.4
  round withCirculation

/-- `isAreaSufficient` (source: `!floorPlan.floor_area_sqm ||
estimatedArea <= floorPlan.floor_area_sqm`): true when the floor area is
falsy (null or 0) or the estimate fits. -/
def isAreaSufficient (estimatedArea : ℤ) (floor_area_sqm : Option ℚ) : Bool :=
  match floor_area_sqm with
  | none => true
  | some a => decide (a = 0) || decide ((estimatedArea : ℚ) ≤ a)

/-- `calculateFeasibilityScore`: 50 for a falsy available area; otherwise
the quotient availableArea / (requiredArea × 1.4) mapped through the
ordered thresholds 1.2 / 1.0 / 0.9 / 0.8.  When `requiredArea` is 0 the
JavaScript quotient is `±Infinity` (positive area gives `+Infinity`,
clearing every threshold; negative gives `-Infinity`, clearing none), so
that case is branched explicitly rather than using the `ℚ` convention
`a / 0 = 0`. -/
def calculateFeasibilityScore (req : SpaceRequirement) (availableArea : Option ℚ) : ℤ :=
  match availableArea with
  | none => 50
  | some a =>
    if a = 0 then 50
    else
      let withCirculation := (requiredArea req : ℚ) * 1.4
      if withCirculation = 0 then
        if 0 < a then 95 else 40
      else
        let q := a / withCirculation
        if 1.2 ≤ q then 95
        else if 1 ≤ q then 85
        else if 0.9 ≤ q then 70
        else if 0.8 ≤ q then 55
        else 40

/-- The single line returned by `generateSuggestions` when the available
area is falsy. -/
def unknownAreaLine : String :=
  "建議先設定平面圖的總面積以獲得更準確的分析。"

/-- `generateSuggestions`: one fixed line when the area is falsy;
otherwise a lead line and three bullets chosen by feasibility, an extra
bullet when workstations exceed 30, and an extra bullet when total
meeting rooms exceed 5, joined with newlines. -/
def generateSuggestions (req : SpaceRequirement) (availableArea : Option ℚ)
    (isFeasible : Bool) : String :=
  if isFalsyArea availableArea then unknownAreaLine
  else
    let base : List String :=
      if !isFeasible then
        ["空間不足以容納所有需求，建議：",
         "- 減少工作站數量或採用更緊湊的配置",
         "- 考慮使用靈活的共享空間取代部分固定會議室",
         "- 評估是否真的需要所有設施"]
      else
        ["空間配置可行！建議：",
         "- 採用開放式工作區域提高空間使用效率",
         "- 使用玻璃隔間增加採光和空間感",
         "- 預留 10-15% 空間作為未來擴充使用"]
    let withCollab :=
      if 30 < req.workstations then
        base ++ ["- 考慮設置協作區域促進團隊互動"]
      else base
    let withBooking :=
      if 5 < req.meeting_rooms_small + req.meeting_rooms_medium + req.meeting_rooms_large then
        withCollab ++ ["- 會議室數量較多，建議採用預約系統提高使用率"]
      else withCollab
    String.intercalate "\n" withBooking

/-- `floorPlan.floor_area_sqm || 0` — falsy areas become 0. -/
def areaOr0 : Option ℚ → ℚ
  | none => 0
  | some a => if a = 0 then 0 else a

/-- `floorPlan.floor_area_sqm || 1` — falsy areas become 1, guarding the
utilization division. -/
def areaOr1 : Option ℚ → ℚ
  | none => 1
  | some a => if a = 0 then 1 else a

/-- The fields of the `layout_solutions` row assembled by
`generateSolution` that are produced by computation (ids, timestamps and
verbatim pass-through amenity copies are omitted). -/
structure LayoutSolution where
  feasibility_score : ℤ
  is_feasible : Bool
  workstations_placed : ℤ
  small_rooms_placed : ℤ
  medium_rooms_placed : ℤ
  large_rooms_placed : ℕ
  utilization_rate : ℚ
  constraints_workstations : Bool
  constraints_meeting_rooms : Bool
  constraints_amenities : Bool
  suggestions : String

/-- The computational core of `generateSolution`: placement estimates
(`Math.floor` is `Int.floor`), the feasibility score and its ≥ 60 flag,
the capped utilization rate, constraint flags and suggestion text. -/
def generateSolution (req : SpaceRequirement) (floor_area_sqm : Option ℚ) : LayoutSolution :=
  let estimatedWorkstations : ℤ := ⌊(req.workstations : ℚ) * 0.85⌋
  let estimatedSmallRooms : ℤ :=
    min (req.meeting_rooms_small : ℤ) ⌊areaOr0 floor_area_sqm / 100⌋
  let estimatedMediumRooms : ℤ :=
    min (req.meeting_rooms_medium : ℤ) ⌊areaOr0 floor_area_sqm / 150⌋
  let feasibilityScore := calculateFeasibilityScore req floor_area_sqm
  let isFeasible := decide (60 ≤ feasibilityScore)
  { feasibility_score := feasibilityScore
    is_feasible := isFeasible
    workstations_placed := estimatedWorkstations
    small_rooms_placed := estimatedSmallRooms
    medium_rooms_placed := estimatedMediumRooms
    large_rooms_placed := min req.meeting_rooms_large 1
    utilization_rate :=
      min 95 ((estimatedWorkstations : ℚ) * 6 / areaOr1 floor_area_sqm * 100)
    constraints_workstations :=
      decide ((req.workstations : ℚ) * 0.8 ≤ (estimatedWorkstations : ℚ))
    constraints_meeting_rooms :=
      decide (((req.meeting_rooms_small + req.meeting_rooms_medium : ℕ) : ℚ) * 0.7 ≤
        ((estimatedSmallRooms + estimatedMediumRooms : ℤ) : ℚ))
    constraints_amenities := true
    suggestions := generateSuggestions req floor_area_sqm isFeasible }

/-- The all-zero requirement: every count 0, every flag false. -/
def zeroReq : SpaceRequirement :=
  { workstations := 0, meeting_rooms_small := 0, meeting_rooms_medium := 0,
    meeting_rooms_large := 0, phone_booths := 0, breakout_areas := 0,
    kitchen_pantry := false, reception_area := false, storage_rooms := 0,
    server_room := false }

/-- Scenario A requirement (also the component's default form values):
10 workstations, 1 small and 1 medium meeting room, 2 phone booths,
1 breakout area, kitchen, reception, 1 storage room. -/
def scenarioAReq : SpaceRequirement :=
  { workstations := 10, meeting_rooms_small := 1, meeting_rooms_medium := 1,
    meeting_rooms_large := 0, phone_booths := 2, breakout_areas := 1,
    kitchen_pantry := true, reception_area := true, storage_rooms := 1,
    server_room := false }

/-- Threshold map written from the claim wording: quotient ≥ 1.2 gives 95,
≥ 1.0 gives 85, ≥ 0.9 gives 70, ≥ 0.8 gives 55, anything lower 40
(inclusive lower boundaries, first match wins). -/
def specScoreOfQuotient (q : ℚ) : ℤ :=
  if 1.2 ≤ q then 95
  else if 1 ≤ q then 85
  else if 0.9 ≤ q then 70
  else if 0.8 ≤ q then 55
  else 40

/-- Weighted total written from the claim wording: unit areas
workstation=6, meeting_small=15, meeting_medium=25, meeting_large=40,
phone_booth=2, breakout=20, kitchen_pantry=15, reception=20,
storage_room=10, server_room=15, booleans contributing when true. -/
def specWeightedTotal (req : SpaceRequirement) : ℕ :=
  req.workstations * 6 +
  req.meeting_rooms_small * 15 +
  req.meeting_rooms_medium * 25 +
  req.meeting_rooms_large * 40 +
  req.phone_booths * 2 +
  req.breakout_areas * 20 +
  (if req.kitchen_pantry then 15 else 0) +
  (if req.reception_area then 20 else 0) +
  req.storage_rooms * 10 +
  (if req.server_room then 15 else 0)

/-- The source computes the same weighted sum in both components. -/
theorem calculateEstimatedArea_eq (req : SpaceRequirement) :
    calculateEstimatedArea req = round ((requiredArea req : ℚ) * 1.4) := rfl

/-- `round` on `ℚ` is monotone (via `round x = ⌊x + 1/2⌋`). -/
theorem round_mono_helper {x y : ℚ} (h : x ≤ y) : round x ≤ round y := by
  rw [round_eq, round_eq]
  exact Int.floor_mono (by linarith)

/-- Claim C1: for every requirement and every non-null, non-zero available
area, `calculateFeasibilityScore` is the quotient
availableArea / (raw weighted area × 1.4) mapped through the ordered
thresholds 1.2 → 95, 1.0 → 85, 0.9 → 70, 0.8 → 55, else 40 (inclusive
lower bounds); and a null available area scores exactly 50 for every
requirement.  The quotient is a well-defined number only when the raw
weighted area is nonzero, hence that hypothesis (the degenerate
divide-by-zero case is settled separately). -/
theorem feasibilityScore_thresholds (req : SpaceRequirement) (a : ℚ)
    (ha : a ≠ 0) (hr : requiredArea req ≠ 0) :
    calculateFeasibilityScore req (some a) =
      specScoreOfQuotient (a / ((requiredArea req : ℚ) * 1.4)) ∧
    calculateFeasibilityScore req none = 50 := by
  refine ⟨?_, rfl⟩
  have hw : ((requiredArea req : ℚ) * 1.4) ≠ 0 :=
    mul_ne_zero (Nat.cast_ne_zero.mpr hr) (by norm_num)
  simp [calculateFeasibilityScore, specScoreOfQuotient, ha, hw]

/-- Witness for C1 at scenario A with available area 300. -/
theorem feasibilityScore_thresholds_w :
    calculateFeasibilityScore scenarioAReq (some 300) =
      specScoreOfQuotient (300 / ((requiredArea scenarioAReq : ℚ) * 1.4)) :=
  (feasibilityScore_thresholds scenarioAReq 300 (by norm_num) (by decide)).1

/-- Claim C2: `calculateEstimatedArea` is round(weighted total × 1.4) with
the fixed unit areas; it is 0 on the all-zero requirement and 237 on the
scenario-A requirement. -/
theorem estimatedArea_formula :
    (∀ req, calculateEstimatedArea req = round ((specWeightedTotal req : ℚ) * 1.4)) ∧
    calculateEstimatedArea zeroReq = 0 ∧
    calculateEstimatedArea scenarioAReq = 237 := by
  refine ⟨fun req => rfl, ?_, ?_⟩ <;>
    norm_num [calculateEstimatedArea, zeroReq, scenarioAReq, round_eq]

/-- Counterexample to claim C3 as stated: at estimatedArea 1 and available
area 0, the available area is a known number strictly smaller than the
estimate, so the claim predicts `false`, but `isAreaSufficient` tests
JavaScript falsiness and returns `true`. -/
theorem isAreaSufficient_claim_cex : ¬ (isAreaSufficient 1 (some 0) = false) := by
  decide

/-- Claim C3 (amended): `isAreaSufficient` returns true when the available
area is null or zero, and for a known nonzero available area it returns
true exactly when estimatedArea ≤ availableArea (hence false whenever a
known nonzero available area is strictly smaller than the estimate). -/
theorem isAreaSufficient_charact (est : ℤ) (a : ℚ) (ha : a ≠ 0) :
    isAreaSufficient est none = true ∧
    isAreaSufficient est (some 0) = true ∧
    (isAreaSufficient est (some a) = true ↔ (est : ℚ) ≤ a) := by
  refine ⟨rfl, by simp [isAreaSufficient], ?_⟩
  simp [isAreaSufficient, ha]

/-- Witness for the amended C3 at estimate 10 and area 12. -/
theorem isAreaSufficient_charact_w :
    isAreaSufficient 10 (some 12) = true ↔ ((10 : ℤ) : ℚ) ≤ 12 :=
  (isAreaSufficient_charact 10 12 (by norm_num)).2.2

/-- Claim C5: the generated solution places
min(requested large meeting rooms, 1) large rooms, so never more than 1. -/
theorem solution_large_room_cap (req : SpaceRequirement) (a : Option ℚ) :
    (generateSolution req a).large_rooms_placed = min req.meeting_rooms_large 1 ∧
    (generateSolution req a).large_rooms_placed ≤ 1 :=
  ⟨rfl, min_le_right _ _⟩

/-- Claim C9: an available area of exactly 0 behaves like a null one in
every core operation: the feasibility score is 50, sufficiency is true
even for a positive estimate, and the suggestions collapse to the single
set-the-floor-area line. -/
theorem zero_area_as_unknown (req : SpaceRequirement) (est : ℤ) (f : Bool) :
    calculateFeasibilityScore req (some 0) = 50 ∧
    isAreaSufficient est (some 0) = true ∧
    generateSuggestions req (some 0) f = unknownAreaLine :=
  ⟨by simp [calculateFeasibilityScore],
   by simp [isAreaSufficient],
   by simp [generateSuggestions, isFalsyArea]⟩

/-- Claim C10: when the raw weighted area is 0 and the available area is
positive, the JavaScript quotient availableArea / 0 is positive Infinity,
which clears the 1.2 threshold, so the score is 95. -/
theorem score_zero_required_area (req : SpaceRequirement) (a : ℚ)
    (hr : requiredArea req = 0) (ha : 0 < a) :
    calculateFeasibilityScore req (some a) = 95 := by
  have ha0 : a ≠ 0 := ne_of_gt ha
  norm_num [calculateFeasibilityScore, hr, ha0, ha]

/-- Witness for C10 at the all-zero requirement with area 100. -/
theorem score_zero_required_area_w :
    calculateFeasibilityScore zeroReq (some 100) = 95 :=
  score_zero_required_area zeroReq 100 (by decide) (by norm_num)

/-- Every value `calculateFeasibilityScore` can return is one of
40, 50, 55, 70, 85, 95. -/
theorem score_mem_codomain (req : SpaceRequirement) (a : Option ℚ) :
    calculateFeasibilityScore req a ∈ ({40, 50, 55, 70, 85, 95} : Set ℤ) := by
  rcases a with _ | x
  · simp [calculateFeasibilityScore]
  · simp only [calculateFeasibilityScore, Set.mem_insert_iff, Set.mem_singleton_iff]
    split
    · tauto
    · split
      · split <;> tauto
      · split
        · tauto
        · split
          · tauto
          · split
            · tauto
            · split <;> tauto

/-- Claim C4: a generated solution is feasible exactly when its
feasibility score is at least 60; the score always lies in
\x7b40, 50, 55, 70, 85, 95\x7d, so feasibility means a score of 70, 85 or
95; in scenario C (scenario-A requirement, area 150) the score is 40 and
the solution is infeasible. -/
theorem solution_feasible_iff :
    (∀ req a, ((generateSolution req a).is_feasible = true ↔
        60 ≤ (generateSolution req a).feasibility_score) ∧
      (generateSolution req a).feasibility_score ∈ ({40, 50, 55, 70, 85, 95} : Set ℤ)) ∧
    (generateSolution scenarioAReq (some 150)).feasibility_score = 40 ∧
    (generateSolution scenarioAReq (some 150)).is_feasible = false := by
  refine ⟨fun req a => ⟨by simp [generateSolution], score_mem_codomain req a⟩, ?_, ?_⟩ <;>
    norm_num [generateSolution, calculateFeasibilityScore, requiredArea, scenarioAReq]

/-- Requirement with 10 workstations and nothing else, used to exhibit a
negative utilization rate. -/
def negAreaReq : SpaceRequirement :=
  { zeroReq with workstations := 10 }

/-- Counterexample to claim C6 as stated: with 10 workstations and an
available area of −10 (reachable, since no layer validates the sign of
the floor area), the utilization rate is min(95, 48/(−10)·100) = −480,
which is not in [0, 95]. -/
theorem utilization_negative_cex :
    ¬ (0 ≤ (generateSolution negAreaReq (some (-10))).utilization_rate) := by
  norm_num [generateSolution, areaOr1, negAreaReq, zeroReq, min_def]

/-- Claim C6 (amended): the utilization rate is
min(95, workstations_placed·6 / (availableArea or 1) · 100), the divisor
substitutes 1 whenever the available area is absent or zero so it is
never 0, and when the available area is null or non-negative the result
lies in [0, 95]. -/
theorem utilization_bounds (req : SpaceRequirement) (a : Option ℚ)
    (ha : 0 ≤ a.getD 0) :
    (generateSolution req a).utilization_rate =
      min 95 (((⌊(req.workstations : ℚ) * 0.85⌋ : ℤ) : ℚ) * 6 / areaOr1 a * 100) ∧
    areaOr1 a ≠ 0 ∧
    0 ≤ (generateSolution req a).utilization_rate ∧
    (generateSolution req a).utilization_rate ≤ 95 := by
  have hpos : 0 < areaOr1 a := by
    rcases a with _ | x
    · norm_num [areaOr1]
    · have hx : (0 : ℚ) ≤ x := by simpa using ha
      simp only [areaOr1]
      split
      · norm_num
      · rename_i hne
        exact lt_of_le_of_ne hx (Ne.symm hne)
  have hwp : (0 : ℚ) ≤ ((⌊(req.workstations : ℚ) * 0.85⌋ : ℤ) : ℚ) := by
    have : (0 : ℤ) ≤ ⌊(req.workstations : ℚ) * 0.85⌋ :=
      Int.floor_nonneg.mpr (by positivity)
    exact_mod_cast this
  refine ⟨rfl, ne_of_gt hpos, ?_, ?_⟩
  · show (0 : ℚ) ≤ min 95 (((⌊(req.workstations : ℚ) * 0.85⌋ : ℤ) : ℚ) * 6 / areaOr1 a * 100)
    refine le_min (by norm_num) ?_
    positivity
  · show min 95 (((⌊(req.workstations : ℚ) * 0.85⌋ : ℤ) : ℚ) * 6 / areaOr1 a * 100) ≤ 95
    exact min_le_left _ _

/-- Witness for the amended C6 at scenario A with area 150. -/
theorem utilization_bounds_w :
    0 ≤ (generateSolution scenarioAReq (some 150)).utilization_rate ∧
    (generateSolution scenarioAReq (some 150)).utilization_rate ≤ 95 :=
  (utilization_bounds scenarioAReq (some 150) (by norm_num)).2.2

/-- Suggestion decision table written from the claim wording: a lead line
plus three fixed bullets chosen by feasibility, then the collaboration
line exactly when workstations exceed 30, then the booking line exactly
when there are more than five meeting rooms in total. -/
def specSuggestionLines (req : SpaceRequirement) (isFeasible : Bool) : List String :=
  (if isFeasible then
    ["空間配置可行！建議：",
     "- 採用開放式工作區域提高空間使用效率",
     "- 使用玻璃隔間增加採光和空間感",
     "- 預留 10-15% 空間作為未來擴充使用"]
   else
    ["空間不足以容納所有需求，建議：",
     "- 減少工作站數量或採用更緊湊的配置",
     "- 考慮使用靈活的共享空間取代部分固定會議室",
     "- 評估是否真的需要所有設施"]) ++
  (if 30 < req.workstations then ["- 考慮設置協作區域促進團隊互動"] else []) ++
  (if 5 < req.meeting_rooms_small + req.meeting_rooms_medium + req.meeting_rooms_large
   then ["- 會議室數量較多，建議採用預約系統提高使用率"] else [])

/-- Claim C7: with a null available area the suggestions are the single
set-the-floor-area line and no other rule applies; with a known nonzero
area they are exactly the claim's decision table — feasibility-chosen
lead line and three bullets, then the collaboration line when
workstations > 30, then the booking line when total meeting rooms > 5 —
joined by newlines in that order. -/
theorem suggestions_table (req : SpaceRequirement) (a : ℚ) (f : Bool)
    (ha : a ≠ 0) :
    generateSuggestions req none f = unknownAreaLine ∧
    generateSuggestions req (some a) f =
      String.intercalate "\n" (specSuggestionLines req f) := by
  refine ⟨rfl, ?_⟩
  simp only [generateSuggestions, isFalsyArea, specSuggestionLines, ha, decide_False,
    Bool.false_eq_true, if_false]
  cases f <;>
    by_cases h1 : 30 < req.workstations <;>
    by_cases h2 : 5 < req.meeting_rooms_small + req.meeting_rooms_medium +
      req.meeting_rooms_large <;>
    simp [h1, h2]

/-- Witness for C7 at scenario A with area 300, feasible branch. -/
theorem suggestions_table_w :
    generateSuggestions scenarioAReq (some 300) true =
      String.intercalate "\n" (specSuggestionLines scenarioAReq true) :=
  (suggestions_table scenarioAReq 300 true (by norm_num)).2

/-- The raw weighted sum is monotone when every count grows and every flag
only turns on. -/
theorem requiredArea_mono {r1 r2 : SpaceRequirement}
    (hw : r1.workstations ≤ r2.workstations)
    (hs : r1.meeting_rooms_small ≤ r2.meeting_rooms_small)
    (hm : r1.meeting_rooms_medium ≤ r2.meeting_rooms_medium)
    (hl : r1.meeting_rooms_large ≤ r2.meeting_rooms_large)
    (hp : r1.phone_booths ≤ r2.phone_booths)
    (hb : r1.breakout_areas ≤ r2.breakout_areas)
    (hk : r1.kitchen_pantry = true → r2.kitchen_pantry = true)
    (hre : r1.reception_area = true → r2.reception_area = true)
    (hst : r1.storage_rooms ≤ r2.storage_rooms)
    (hsv : r1.server_room = true → r2.server_room = true) :
    requiredArea r1 ≤ requiredArea r2 := by
  have e1 : (if r1.kitchen_pantry then 15 else 0) ≤
      (if r2.kitchen_pantry then (15 : ℕ) else 0) := by
    cases h : r1.kitchen_pantry
    · simp
    · simp [hk h]
  have e2 : (if r1.reception_area then 20 else 0) ≤
      (if r2.reception_area then (20 : ℕ) else 0) := by
    cases h : r1.reception_area
    · simp
    · simp [hre h]
  have e3 : (if r1.server_room then 15 else 0) ≤
      (if r2.server_room then (15 : ℕ) else 0) := by
    cases h : r1.server_room
    · simp
    · simp [hsv h]
  unfold requiredArea
  omega

/-- Estimated areas compare as the raw weighted sums do. -/
theorem estimatedArea_le_of_requiredArea_le {r1 r2 : SpaceRequirement}
    (h : requiredArea r1 ≤ requiredArea r2) :
    calculateEstimatedArea r1 ≤ calculateEstimatedArea r2 := by
  rw [calculateEstimatedArea_eq, calculateEstimatedArea_eq]
  refine round_mono_helper ?_
  have hq : (requiredArea r1 : ℚ) ≤ (requiredArea r2 : ℚ) := by exact_mod_cast h
  nlinarith

/-- Claim C8: `calculateEstimatedArea` is monotonically non-decreasing in
every field — raising any single count, or turning any single flag from
false to true, while holding all other fields fixed, never lowers the
estimate. -/
theorem estimatedArea_monotone (req : SpaceRequirement) :
    (∀ n, req.workstations ≤ n →
      calculateEstimatedArea req ≤
        calculateEstimatedArea { req with workstations := n }) ∧
    (∀ n, req.meeting_rooms_small ≤ n →
      calculateEstimatedArea req ≤
        calculateEstimatedArea { req with meeting_rooms_small := n }) ∧
    (∀ n, req.meeting_rooms_medium ≤ n →
      calculateEstimatedArea req ≤
        calculateEstimatedArea { req with meeting_rooms_medium := n }) ∧
    (∀ n, req.meeting_rooms_large ≤ n →
      calculateEstimatedArea req ≤
        calculateEstimatedArea { req with meeting_rooms_large := n }) ∧
    (∀ n, req.phone_booths ≤ n →
      calculateEstimatedArea req ≤
        calculateEstimatedArea { req with phone_booths := n }) ∧
    (∀ n, req.breakout_areas ≤ n →
      calculateEstimatedArea req ≤
        calculateEstimatedArea { req with breakout_areas := n }) ∧
    (∀ n, req.storage_rooms ≤ n →
      calculateEstimatedArea req ≤
        calculateEstimatedArea { req with storage_rooms := n }) ∧
    calculateEstimatedArea { req with kitchen_pantry := false } ≤
      calculateEstimatedArea { req with kitchen_pantry := true } ∧
    calculateEstimatedArea { req with reception_area := false } ≤
      calculateEstimatedArea { req with reception_area := true } ∧
    calculateEstimatedArea { req with server_room := false } ≤
      calculateEstimatedArea { req with server_room := true } := by
  refine ⟨?_, ?_, ?_, ?_, ?_, ?_, ?_, ?_, ?_, ?_⟩
  · exact fun n hn => estimatedArea_le_of_requiredArea_le
      (requiredArea_mono hn (le_refl _) (le_refl _) (le_refl _) (le_refl _)
        (le_refl _) (fun h => h) (fun h => h) (le_refl _) (fun h => h))
  · exact fun n hn => estimatedArea_le_of_requiredArea_le
      (requiredArea_mono (le_refl _) hn (le_refl _) (le_refl _) (le_refl _)
        (le_refl _) (fun h => h) (fun h => h) (le_refl _) (fun h => h))
  · exact fun n hn => estimatedArea_le_of_requiredArea_le
      (requiredArea_mono (le_refl _) (le_refl _) hn (le_refl _) (le_refl _)
        (le_refl _) (fun h => h) (fun h => h) (le_refl _) (fun h => h))
  · exact fun n hn => estimatedArea_le_of_requiredArea_le
      (requiredArea_mono (le_refl _) (le_refl _) (le_refl _) hn (le_refl _)
        (le_refl _) (fun h => h) (fun h => h) (le_refl _) (fun h => h))
  · exact fun n hn => estimatedArea_le_of_requiredArea_le
      (requiredArea_mono (le_refl _) (le_refl _) (le_refl _) (le_refl _) hn
        (le_refl _) (fun h => h) (fun h => h) (le_refl _) (fun h => h))
  · exact fun n hn => estimatedArea_le_of_requiredArea_le
      (requiredArea_mono (le_refl _) (le_refl _) (le_refl _) (le_refl _)
        (le_refl _) hn (fun h => h) (fun h => h) (le_refl _) (fun h => h))
  · exact fun n hn => estimatedArea_le_of_requiredArea_le
      (requiredArea_mono (le_refl _) (le_refl _) (le_refl _) (le_refl _)
        (le_refl _) (le_refl _) (fun h => h) (fun h => h) hn (fun h => h))
  · exact estimatedArea_le_of_requiredArea_le
      (requiredArea_mono (le_refl _) (le_refl _) (le_refl _) (le_refl _)
        (le_refl _) (le_refl _) (fun h => rfl) (fun h => h) (le_refl _)
        (fun h => h))
  · exact estimatedArea_le_of_requiredArea_le
      (requiredArea_mono (le_refl _) (le_refl _) (le_refl _) (le_refl _)
        (le_refl _) (le_refl _) (fun h => h) (fun h => rfl) (le_refl _)
        (fun h => h))
  · exact estimatedArea_le_of_requiredArea_le
      (requiredArea_mono (le_refl _) (le_refl _) (le_refl _) (le_refl _)
        (le_refl _) (le_refl _) (fun h => h) (fun h => h) (le_refl _)
        (fun h => rfl))

/-- Witness for C8: raising workstations from 0 to 5 does not lower the
estimate. -/
theorem estimatedArea_monotone_w :
    calculateEstimatedArea zeroReq ≤
      calculateEstimatedArea { zeroReq with workstations := 5 } :=
  (estimatedArea_monotone zeroReq).1 5 (by decide)

end OfficePlanner
